import Mathlib

/-!
# Verification of the authentication routes of ABC-Patient-s-Directory

Shallow embedding of the Express authentication router
(`initAuthRoutes` and its helpers): JWT issuing/checking, the login
endpoint with its failed-attempt lockout, MFA verification and
enrollment, password reset, the Google OAuth federation callback, and
the `/me` endpoint.  External collaborators (bcrypt, speakeasy TOTP,
sha256) are abstracted as function parameters; the PostgreSQL
`admin_users` table is a `List AdminUser`; wall-clock time is a `Nat`
of milliseconds threaded explicitly.
-/

namespace AuthRoutes

/-- Claims carried by a JWT minted by this router.  `generateToken`
sets `userId`, `email`, `role`; `generateTempToken` sets `userId` and
`temp := true`.  `exp` is the expiry instant (milliseconds). -/
structure JwtPayload where
  userId : String
  email : Option String
  role : Option String
  temp : Bool
  exp : Nat
deriving Repr, DecidableEq

/-- A signed JWT: its payload plus the key it was signed with.
`jwt.verify` succeeds exactly when the signing key matches the
verification key and the token is unexpired. -/
structure Jwt where
  payload : JwtPayload
  signedWith : String
deriving Repr, DecidableEq

/-- A row of the `admin_users` table. -/
structure AdminUser where
  id : String
  email : String
  name : String
  password_hash : String
  mfa_enabled : Bool
  mfa_secret : Option String
  mfa_secret_temp : Option String
  failed_login_attempts : Nat
  locked_until : Option Nat
  reset_token : Option String
  reset_token_expiry : Option Nat
  created_at : Option Nat
  last_login : Option Nat
  password_changed_at : Option Nat
deriving Repr, DecidableEq

/-- The `user` object embedded in login / verify-mfa success bodies:
`{ id, email, name }`. -/
structure UserView where
  id : String
  email : String
  name : String
deriving Repr, DecidableEq

/-- The `user` object returned by `/me`. -/
structure MeView where
  id : String
  email : String
  name : String
  mfa_enabled : Bool
  created_at : Option Nat
  last_login : Option Nat
deriving Repr, DecidableEq

/-- An HTTP response as produced by `res.status(..).json({..})`:
the status code plus the optional JSON body fields used by these
routes.  A field is `none` when the body does not carry it. -/
structure Resp where
  status : Nat
  error : Option String := none
  message : Option String := none
  attemptsRemaining : Option Nat := none
  requiresMFA : Option Bool := none
  tempToken : Option Jwt := none
  token : Option Jwt := none
  user : Option UserView := none
  meUser : Option MeView := none
deriving Repr, DecidableEq

/-- JavaScript `toLowerCase()`, character by character (the inputs of
interest are ASCII email addresses). -/
def lowerStr (s : String) : String :=
  ⟨s.data.map Char.toLower⟩

/-- JavaScript `trim()`: strip leading and trailing whitespace. -/
def trimStr (s : String) : String :=
  ⟨((s.data.dropWhile Char.isWhitespace).reverse.dropWhile
      Char.isWhitespace).reverse⟩

/-- JavaScript `email.split('@')[0]`: the part before the first `@`
(the whole string when there is none). -/
def localPart (s : String) : String :=
  ⟨s.data.takeWhile fun c => c ≠ '@'⟩

/-- JavaScript truthiness of an optional string column
(`null` and `''` are falsy). -/
def optTruthy : Option String → Bool
  | none => false
  | some s => s ≠ ""

/-- `UPDATE admin_users SET ... WHERE id = $n`: rewrite every row
whose `id` matches. -/
def updateUser (store : List AdminUser) (id : String)
    (f : AdminUser → AdminUser) : List AdminUser :=
  store.map fun u => if u.id = id then f u else u

/-- `SELECT * FROM admin_users WHERE email = $1` with the lowercased
input email. -/
def findByEmail (store : List AdminUser) (email : String) :
    Option AdminUser :=
  store.find? fun u => u.email = lowerStr email

/-- `SELECT * FROM admin_users WHERE id = $1`. -/
def findById (store : List AdminUser) (id : String) :
    Option AdminUser :=
  store.find? fun u => u.id = id

/-- Session-token lifetime: `JWT_EXPIRES_IN = '8h'`. -/
def sessionLifetimeMs : Nat := 8 * 60 * 60 * 1000

/-- MFA-pending token lifetime: `expiresIn: '5m'`. -/
def tempLifetimeMs : Nat := 5 * 60 * 1000

/-- Lockout duration: 15 minutes. -/
def lockDurationMs : Nat := 15 * 60 * 1000

/-- Lockout threshold: 5 failed attempts. -/
def lockThreshold : Nat := 5

/-- Admin-account capacity enforced by the Google OAuth callback. -/
def maxAdminUsers : Nat := 5

/-- `generateToken`: full session JWT with claims
`{ userId, email, role: 'admin' }`, lifetime 8 hours. -/
def generateToken (jwtSecret : String) (now : Nat)
    (userId email : String) : Jwt :=
  { payload := { userId := userId, email := some email,
                 role := some "admin", temp := false,
                 exp := now + sessionLifetimeMs },
    signedWith := jwtSecret }

/-- `generateTempToken`: MFA-pending JWT with claims
`{ userId, temp: true }`, lifetime 5 minutes. -/
def generateTempToken (jwtSecret : String) (now : Nat)
    (userId : String) : Jwt :=
  { payload := { userId := userId, email := none, role := none,
                 temp := true, exp := now + tempLifetimeMs },
    signedWith := jwtSecret }

/-- `jwt.verify(token, JWT_SECRET)`: yields the decoded payload when
the signature matches and the token is unexpired, otherwise fails. -/
def verifyJwt (jwtSecret : String) (now : Nat) (t : Jwt) :
    Option JwtPayload :=
  if t.signedWith = jwtSecret ∧ now < t.payload.exp then
    some t.payload
  else
    none

/-- Result of the `authenticateToken` middleware: either an early
error response, or the request proceeds with `req.user` set to the
decoded payload. -/
inductive AuthCheck where
  | reject (r : Resp)
  | proceed (p : JwtPayload)
deriving Repr, DecidableEq

/-- The `authenticateToken` middleware: 401 when no token is
presented, 403 when `jwt.verify` fails, otherwise the decoded payload
is attached and the handler runs.  It inspects no claim of the
payload. -/
def authenticateToken (jwtSecret : String) (now : Nat)
    (token : Option Jwt) : AuthCheck :=
  match token with
  | none => .reject { status := 401, error := some "Access token required" }
  | some t =>
    match verifyJwt jwtSecret now t with
    | none => .reject { status := 403, error := some "Invalid or expired token" }
    | some p => .proceed p

/-- `user.locked_until && new Date(user.locked_until) > new Date()`:
the account is currently locked. -/
def lockedNow (now : Nat) (u : AdminUser) : Bool :=
  match u.locked_until with
  | some t => decide (now < t)
  | none => false

/-- `POST /api/auth/login`.  `bcrypt pw hash` models
`bcrypt.compare(pw, hash)`.  Returns the response together with the
updated table. -/
def login (jwtSecret : String) (bcrypt : String → String → Bool)
    (now : Nat) (store : List AdminUser) (email password : String) :
    Resp × List AdminUser :=
  if email = "" ∨ password = "" then
    ({ status := 400, error := some "Email and password required" }, store)
  else
    match findByEmail store email with
    | none =>
      ({ status := 401, error := some "Invalid email or password" }, store)
    | some user =>
      if lockedNow now user then
        ({ status := 423,
           error := some "Account temporarily locked due to multiple failed attempts. Try again later." },
         store)
      else if ¬ bcrypt password user.password_hash then
        let failedAttempts := user.failed_login_attempts + 1
        let lockUntil : Option Nat :=
          if lockThreshold ≤ failedAttempts then
            some (now + lockDurationMs)
          else
            none
        ({ status := 401, error := some "Invalid email or password",
           attemptsRemaining := some (lockThreshold - failedAttempts) },
         updateUser store user.id fun u =>
           { u with failed_login_attempts := failedAttempts,
                    locked_until := lockUntil })
      else
        let store2 := updateUser store user.id fun u =>
          { u with failed_login_attempts := 0, locked_until := none,
                   last_login := some now }
        if user.mfa_enabled ∧ optTruthy user.mfa_secret then
          ({ status := 200, requiresMFA := some true,
             tempToken := some (generateTempToken jwtSecret now user.id) },
           store2)
        else
          ({ status := 200,
             token := some (generateToken jwtSecret now user.id user.email),
             user := some { id := user.id, email := user.email,
                            name := user.name } },
           store2)

/-- `POST /api/auth/verify-mfa`.  `totp secret code` models
`speakeasy.totp.verify({secret, token: code, window: 2})`.  A
`jwt.verify` failure (bad signature or expired) throws and is caught
by the handler's catch-all, which answers 500. -/
def verifyMfa (jwtSecret : String) (totp : String → String → Bool)
    (now : Nat) (store : List AdminUser) (tempToken : Option Jwt)
    (mfaCode : String) : Resp :=
  match tempToken with
  | none => { status := 400, error := some "Temp token and MFA code required" }
  | some tok =>
    if mfaCode = "" then
      { status := 400, error := some "Temp token and MFA code required" }
    else
      match verifyJwt jwtSecret now tok with
      | none => { status := 500, error := some "Internal server error" }
      | some decoded =>
        if ¬ decoded.temp then
          { status := 401, error := some "Invalid token" }
        else
          match findById store decoded.userId with
          | none => { status := 401, error := some "MFA not enabled for this user" }
          | some user =>
            if ¬ (user.mfa_enabled ∧ optTruthy user.mfa_secret) then
              { status := 401, error := some "MFA not enabled for this user" }
            else if ¬ totp (user.mfa_secret.getD "") mfaCode then
              { status := 401, error := some "Invalid MFA code" }
            else
              { status := 200,
                token := some (generateToken jwtSecret now user.id user.email),
                user := some { id := user.id, email := user.email,
                               name := user.name } }

/-- `POST /api/auth/reset-password`.  `sha256` models the reset-token
hashing, `bhash` models `bcrypt.hash(newPassword, 12)`. -/
def resetPassword (sha256 : String → String) (bhash : String → String)
    (now : Nat) (store : List AdminUser) (token newPassword : String) :
    Resp × List AdminUser :=
  if token = "" ∨ newPassword = "" then
    ({ status := 400, error := some "Token and new password required" }, store)
  else if newPassword.length < 12 then
    ({ status := 400,
       error := some "Password must be at least 12 characters long" },
     store)
  else
    let tokenHash := sha256 token
    match store.find? (fun u =>
        u.reset_token == some tokenHash &&
        (match u.reset_token_expiry with
         | some e => decide (now < e)
         | none => false)) with
    | none =>
      ({ status := 401, error := some "Invalid or expired reset token" }, store)
    | some user =>
      ({ status := 200, message := some "Password reset successful" },
       updateUser store user.id fun u =>
         { u with password_hash := bhash newPassword,
                  reset_token := none,
                  reset_token_expiry := none,
                  password_changed_at := some now })

/-- The `POST /api/auth/enable-mfa` handler body, run after
`authenticateToken` succeeded with `req.user.userId = userId`. -/
def enableMfaHandler (totp : String → String → Bool)
    (store : List AdminUser) (userId mfaCode : String) :
    Resp × List AdminUser :=
  if mfaCode = "" then
    ({ status := 400, error := some "MFA code required" }, store)
  else
    match findById store userId with
    | none => ({ status := 400, error := some "MFA setup not initiated" }, store)
    | some user =>
      if ¬ optTruthy user.mfa_secret_temp then
        ({ status := 400, error := some "MFA setup not initiated" }, store)
      else if ¬ totp (user.mfa_secret_temp.getD "") mfaCode then
        ({ status := 401, error := some "Invalid MFA code" }, store)
      else
        ({ status := 200, message := some "MFA enabled successfully" },
         updateUser store userId fun u =>
           { u with mfa_enabled := true,
                    mfa_secret := u.mfa_secret_temp,
                    mfa_secret_temp := none })

/-- `POST /api/auth/enable-mfa`, guard included. -/
def enableMfa (jwtSecret : String) (totp : String → String → Bool)
    (now : Nat) (store : List AdminUser) (token : Option Jwt)
    (mfaCode : String) : Resp × List AdminUser :=
  match authenticateToken jwtSecret now token with
  | .reject r => (r, store)
  | .proceed p => enableMfaHandler totp store p.userId mfaCode

/-- The `GET /api/auth/me` handler body, run after
`authenticateToken` succeeded. -/
def meHandler (store : List AdminUser) (userId : String) : Resp :=
  match findById store userId with
  | none => { status := 404, error := some "User not found" }
  | some user =>
    { status := 200,
      meUser := some { id := user.id, email := user.email,
                       name := user.name, mfa_enabled := user.mfa_enabled,
                       created_at := user.created_at,
                       last_login := user.last_login } }

/-- `GET /api/auth/me`, guard included. -/
def meEndpoint (jwtSecret : String) (now : Nat)
    (store : List AdminUser) (token : Option Jwt) : Resp :=
  match authenticateToken jwtSecret now token with
  | .reject r => r
  | .proceed p => meHandler store p.userId

/-- Outcome handed to `done` by the Google OAuth strategy callback:
either an `Error` with a message, or a user row. -/
inductive FedOutcome where
  | err (msg : String)
  | ok (u : AdminUser)
deriving Repr, DecidableEq

/-- The Google OAuth strategy verify callback: whitelist check,
existing-account reuse, and capped account creation.
`emailOpt` models `profile.emails?.[0]?.value`, `displayName` models
`profile.displayName` (`""` for absent, which is falsy),
`allowedEmails` the comma-split `GOOGLE_ALLOWED_EMAILS` entries,
`newId` the generated random id and `randHash` the bcrypt hash of the
random throwaway password. -/
def federate (allowedEmails : List String) (newId randHash : String)
    (now : Nat) (store : List AdminUser) (emailOpt : Option String)
    (displayName : String) : FedOutcome × List AdminUser :=
  match emailOpt with
  | none => (.err "No email found in Google profile", store)
  | some email =>
    let allowed := allowedEmails.map fun e => lowerStr (trimStr e)
    if allowed = [] then
      (.err "Google OAuth whitelist not configured", store)
    else if ¬ allowed.contains (lowerStr email) then
      (.err "This Google account is not authorized to access MediFlow AI",
       store)
    else
      match findByEmail store email with
      | none =>
        if maxAdminUsers ≤ store.length then
          (.err "Maximum number of admin accounts reached", store)
        else
          let newUser : AdminUser :=
            { id := newId, email := lowerStr email,
              name := if displayName ≠ "" then displayName
                      else localPart email,
              password_hash := randHash, mfa_enabled := false,
              mfa_secret := none, mfa_secret_temp := none,
              failed_login_attempts := 0, locked_until := none,
              reset_token := none, reset_token_expiry := none,
              created_at := some now, last_login := some now,
              password_changed_at := none }
          (.ok newUser, store ++ [newUser])
      | some user =>
        (.ok user,
         updateUser store user.id fun u => { u with last_login := some now })

/-!
## Interleaving model of two concurrent wrong-password login attempts

The login handler reads the row (`SELECT`, observing
`failed_login_attempts`) and later writes the updated counter and
lockout (`UPDATE`) in a second round trip.  Two concurrent attempts
against the same account are modelled as two processes, each
performing one read step and one write step against a shared record,
under an arbitrary interleaving.
-/

/-- The per-account fields the two attempts race on. -/
structure RaceStore where
  counter : Nat
  lockedUntil : Option Nat
deriving Repr, DecidableEq

/-- Progress of one login attempt: about to `SELECT`, about to
`UPDATE` (holding the counter value it read), or finished. -/
inductive Phase where
  | toRead
  | toWrite (readVal : Nat)
  | written
deriving Repr, DecidableEq

/-- Shared record plus the two attempts' progress. -/
structure RaceState where
  rs : RaceStore
  a : Phase
  b : Phase
deriving Repr, DecidableEq

/-- The `UPDATE` of the wrong-password branch, computed from the
counter value read earlier: `failedAttempts = readVal + 1`, lockout
set exactly when the new counter reaches the threshold. -/
def applyWrite (now readVal : Nat) : RaceStore :=
  let failedAttempts := readVal + 1
  { counter := failedAttempts,
    lockedUntil := if lockThreshold ≤ failedAttempts then
                     some (now + lockDurationMs)
                   else
                     none }

/-- One attempt takes its next step against the shared record. -/
def stepAttempt (now : Nat) (p : Phase) (st : RaceStore) :
    Phase × RaceStore :=
  match p with
  | .toRead => (.toWrite st.counter, st)
  | .toWrite v => (.written, applyWrite now v)
  | .written => (.written, st)

/-- Scheduler step: `true` advances attempt `a`, `false` attempt `b`. -/
def step (now : Nat) (pickA : Bool) (s : RaceState) : RaceState :=
  if pickA then
    let (p, st) := stepAttempt now s.a s.rs
    { rs := st, a := p, b := s.b }
  else
    let (p, st) := stepAttempt now s.b s.rs
    { rs := st, a := s.a, b := p }

/-- Run a schedule (list of scheduler choices). -/
def run (now : Nat) (sched : List Bool) (s : RaceState) : RaceState :=
  sched.foldl (fun st c => step now c st) s

/-- Both attempts start before their `SELECT`, against an account
whose stored failed counter is 4 (one short of the threshold). -/
def initRace : RaceState :=
  { rs := { counter := 4, lockedUntil := none },
    a := .toRead, b := .toRead }

/-- A phase is good when any counter value it read is at least 4. -/
def goodPhase : Phase → Prop
  | .toWrite v => 4 ≤ v
  | _ => True

/-- Inductive invariant of the race from `initRace`: the stored
counter never drops below 4, every read value is at least 4, and as
soon as either attempt has written, the lockout is set. -/
def raceInv (s : RaceState) : Prop :=
  4 ≤ s.rs.counter ∧ goodPhase s.a ∧ goodPhase s.b ∧
  ((s.a = .written ∨ s.b = .written) →
    (s.rs.lockedUntil).isSome = true)

/-!
## Sample accounts used by concrete evaluations
-/

/-- A sample stored administrator account. -/
def aliceUser : AdminUser :=
  { id := "u1", email := "alice@x.com", name := "Alice",
    password_hash := "Hpw1", mfa_enabled := false, mfa_secret := none,
    mfa_secret_temp := none, failed_login_attempts := 0,
    locked_until := none, reset_token := none,
    reset_token_expiry := none, created_at := some 1,
    last_login := none, password_changed_at := none }

/-- The sample account with 2 failed attempts. -/
def alice2 : AdminUser :=
  { aliceUser with failed_login_attempts := 2 }

/-- The sample account with 4 failed attempts (one short of the
lockout threshold). -/
def alice4 : AdminUser :=
  { aliceUser with failed_login_attempts := 4 }

/-- The sample account in the locked state (lockout expiry 2000). -/
def aliceLocked : AdminUser :=
  { aliceUser with failed_login_attempts := 5, locked_until := some 2000 }

/-- The sample account with `mfa_enabled = true` but no stored MFA
secret. -/
def aliceMfaNoSecret : AdminUser :=
  { aliceUser with mfa_enabled := true }

/-- The sample account mid-enrollment: a pending MFA secret. -/
def alicePending : AdminUser :=
  { aliceUser with mfa_secret_temp := some "PENDSECRET" }

/-- The sample account with MFA enabled and an active secret. -/
def aliceMfa : AdminUser :=
  { aliceUser with mfa_enabled := true, mfa_secret := some "ACTSECRET" }

/-- The sample account with counter 3 and a live reset token (hash of
`tok`, expiry 100). -/
def aliceReset3 : AdminUser :=
  { aliceUser with
      failed_login_attempts := 3
      reset_token := some "sha:tok"
      reset_token_expiry := some 100 }

/-- A table of five accounts (the capacity cap), `alice@x.com` among
them and no account with email `new@x.com`. -/
def capStore : List AdminUser :=
  [aliceUser,
   { aliceUser with id := "u2", email := "b@x.com" },
   { aliceUser with id := "u3", email := "c@x.com" },
   { aliceUser with id := "u4", email := "d@x.com" },
   { aliceUser with id := "u5", email := "e@x.com" }]

/-!
## Helper lemmas
-/

/-- Every row of an updated table comes from a row of the original
table, rewritten when its id matches. -/
theorem mem_updateUser {store : List AdminUser} {id : String}
    {f : AdminUser → AdminUser} {v : AdminUser}
    (hv : v ∈ updateUser store id f) :
    ∃ w ∈ store, v = if w.id = id then f w else w := by
  unfold updateUser at hv
  obtain ⟨w, hw, hfw⟩ := List.mem_map.mp hv
  exact ⟨w, hw, hfw.symm⟩

/-- An update that preserves a projection leaves that projection of
the whole table unchanged. -/
theorem map_updateUser {β : Type} (store : List AdminUser) (id : String)
    (f : AdminUser → AdminUser) (g : AdminUser → β)
    (hf : ∀ u, g (f u) = g u) :
    (updateUser store id f).map g = store.map g := by
  unfold updateUser
  induction store with
  | nil => rfl
  | cons hd tl ih =>
    simp only [List.map_cons, List.map_map] at ih ⊢
    refine congrArg₂ List.cons ?_ ih
    by_cases h : hd.id = id <;> simp [h, hf]

/-- Characterization of the wrong-password branch of `login`. -/
theorem login_wrong_eq (jwtSecret : String)
    (bcrypt : String → String → Bool) (now : Nat)
    (store : List AdminUser) (email password : String) (u : AdminUser)
    (hne : email ≠ "") (hnp : password ≠ "")
    (hfind : findByEmail store email = some u)
    (hlock : lockedNow now u = false)
    (hwrong : bcrypt password u.password_hash = false) :
    login jwtSecret bcrypt now store email password =
      ({ status := 401, error := some "Invalid email or password",
         attemptsRemaining :=
           some (lockThreshold - (u.failed_login_attempts + 1)) },
       updateUser store u.id fun w =>
         { w with failed_login_attempts := u.failed_login_attempts + 1,
                  locked_until :=
                    if lockThreshold ≤ u.failed_login_attempts + 1 then
                      some (now + lockDurationMs)
                    else
                      none }) := by
  unfold login
  simp [hne, hnp, hfind, hlock, hwrong]

/-- Characterization of the successful-password branch of `login`:
the stored row is rewritten with counter 0, no lockout, fresh
last-login. -/
theorem login_success_store (jwtSecret : String)
    (bcrypt : String → String → Bool) (now : Nat)
    (store : List AdminUser) (email password : String) (u : AdminUser)
    (hne : email ≠ "") (hnp : password ≠ "")
    (hfind : findByEmail store email = some u)
    (hlock : lockedNow now u = false)
    (hright : bcrypt password u.password_hash = true) :
    (login jwtSecret bcrypt now store email password).2 =
      updateUser store u.id fun w =>
        { w with failed_login_attempts := 0, locked_until := none,
                 last_login := some now } := by
  unfold login
  by_cases hmfa : u.mfa_enabled ∧ optTruthy u.mfa_secret <;>
    simp [hne, hnp, hfind, hlock, hright, hmfa]

/-!
## C4: wrong password increments the counter, locks at the threshold
-/

/-- C4: for a login against a registered, non-locked account with a
wrong password, the failed counter is incremented by one; the
lockout-expiry is set to now + 15 minutes exactly when the new
counter reaches the threshold 5, and is unset otherwise; and the 401
response reports `attemptsRemaining = max(0, 5 - counter)` (truncated
`Nat` subtraction) for the new counter value. -/
theorem c4_wrong_password_increments_and_locks (jwtSecret : String)
    (bcrypt : String → String → Bool) (now : Nat)
    (store : List AdminUser) (email password : String) (u : AdminUser)
    (hne : email ≠ "") (hnp : password ≠ "")
    (hfind : findByEmail store email = some u)
    (huniq : ∀ v ∈ store, v.id = u.id → v = u)
    (hlock : lockedNow now u = false)
    (hwrong : bcrypt password u.password_hash = false) :
    (login jwtSecret bcrypt now store email password).1.status = 401 ∧
    (login jwtSecret bcrypt now store email password).1.attemptsRemaining =
      some (lockThreshold - (u.failed_login_attempts + 1)) ∧
    ∀ v ∈ (login jwtSecret bcrypt now store email password).2,
      v.id = u.id →
        v.failed_login_attempts = u.failed_login_attempts + 1 ∧
        v.locked_until =
          (if lockThreshold ≤ u.failed_login_attempts + 1 then
             some (now + lockDurationMs)
           else
             none) := by
  rw [login_wrong_eq jwtSecret bcrypt now store email password u hne hnp
        hfind hlock hwrong]
  refine ⟨rfl, rfl, ?_⟩
  intro v hv hid
  obtain ⟨w, hw, hvw⟩ := mem_updateUser hv
  by_cases h : w.id = u.id
  · have hwu : w = u := huniq w hw h
    subst hwu
    simp only [if_pos h] at hvw
    subst hvw
    exact ⟨rfl, rfl⟩
  · simp only [if_neg h] at hvw
    subst hvw
    exact absurd hid h

/-- C4 witness: the sample account with counter 4 and a wrong
password ends with counter 5, lockout set to now + 15 minutes, and
`attemptsRemaining = 0`. -/
theorem c4_witness :
    (login "s" (fun pw h => h == "H" ++ pw) 1000 [alice4] "alice@x.com"
        "wrongpw").1.status = 401 ∧
    (login "s" (fun pw h => h == "H" ++ pw) 1000 [alice4] "alice@x.com"
        "wrongpw").1.attemptsRemaining = some 0 ∧
    ∀ v ∈ (login "s" (fun pw h => h == "H" ++ pw) 1000 [alice4]
        "alice@x.com" "wrongpw").2,
      v.id = alice4.id →
        v.failed_login_attempts = 5 ∧
        v.locked_until = some (1000 + lockDurationMs) := by
  have h := c4_wrong_password_increments_and_locks "s"
    (fun pw h => h == "H" ++ pw) 1000 [alice4] "alice@x.com" "wrongpw"
    alice4 (by decide) (by decide) (by decide)
    (by intro v hv _; simpa using hv) (by decide) (by decide)
  simpa using h

/-!
## C5: an in-the-future lockout blocks login unconditionally
-/

/-- C5: when the account's lockout-expiry is set and in the future,
login answers the 423 locked response and leaves the table untouched,
for every submitted password and every password checker — in
particular no session token and no MFA-pending token is issued (both
token fields of the response are `none`). -/
theorem c5_locked_blocks_login (jwtSecret : String)
    (bcrypt : String → String → Bool) (now : Nat)
    (store : List AdminUser) (email password : String) (u : AdminUser)
    (t : Nat)
    (hne : email ≠ "") (hnp : password ≠ "")
    (hfind : findByEmail store email = some u)
    (hlockset : u.locked_until = some t) (hfut : now < t) :
    login jwtSecret bcrypt now store email password =
      ({ status := 423,
         error := some "Account temporarily locked due to multiple failed attempts. Try again later." },
       store) ∧
    (login jwtSecret bcrypt now store email password).1.token = none ∧
    (login jwtSecret bcrypt now store email password).1.tempToken = none := by
  have hlock : lockedNow now u = true := by
    unfold lockedNow
    rw [hlockset]
    simpa using hfut
  have h : login jwtSecret bcrypt now store email password =
      ({ status := 423,
         error := some "Account temporarily locked due to multiple failed attempts. Try again later." },
       store) := by
    unfold login
    simp [hne, hnp, hfind, hlock]
  exact ⟨h, by rw [h], by rw [h]⟩

/-- C5 witness: the locked sample account (lockout expiry 2000, now
1000) with the CORRECT password still gets the 423 locked response. -/
theorem c5_witness :
    login "s" (fun pw h => h == "H" ++ pw) 1000 [aliceLocked]
        "alice@x.com" "pw1" =
      ({ status := 423,
         error := some "Account temporarily locked due to multiple failed attempts. Try again later." },
       [aliceLocked]) := by
  exact (c5_locked_blocks_login "s" (fun pw h => h == "H" ++ pw) 1000
    [aliceLocked] "alice@x.com" "pw1" aliceLocked 2000 (by decide)
    (by decide) (by decide) rfl (by decide)).1

/-!
## C10: MFA enabled without a stored secret is silently bypassed
-/

/-- C10: when an account has `mfa_enabled = true` but no stored MFA
secret, a correct-password login issues the full session token
immediately: the response carries the session token and the user
object, and its `requiresMFA` and `tempToken` fields are `none`
(defaults of the returned literal), because the MFA branch requires
both the flag and a truthy secret. -/
theorem c10_mfa_bypass_when_secret_missing (jwtSecret : String)
    (bcrypt : String → String → Bool) (now : Nat)
    (store : List AdminUser) (email password : String) (u : AdminUser)
    (hne : email ≠ "") (hnp : password ≠ "")
    (hfind : findByEmail store email = some u)
    (hlock : lockedNow now u = false)
    (_hmfa : u.mfa_enabled = true) (hsec : u.mfa_secret = none)
    (hright : bcrypt password u.password_hash = true) :
    (login jwtSecret bcrypt now store email password).1 =
      { status := 200,
        token := some (generateToken jwtSecret now u.id u.email),
        user := some { id := u.id, email := u.email, name := u.name } } := by
  unfold login
  simp [hne, hnp, hfind, hlock, hright, hsec, optTruthy]

/-- C10 witness: the sample account with `mfa_enabled = true`,
`mfa_secret = none`: correct password yields the full token, not
`requiresMFA`. -/
theorem c10_witness :
    (login "s" (fun pw h => h == "H" ++ pw) 1000 [aliceMfaNoSecret]
        "alice@x.com" "pw1").1 =
      { status := 200,
        token := some (generateToken "s" 1000 "u1" "alice@x.com"),
        user := some { id := "u1", email := "alice@x.com",
                       name := "Alice" } } := by
  exact c10_mfa_bypass_when_secret_missing "s" (fun pw h => h == "H" ++ pw)
    1000 [aliceMfaNoSecret] "alice@x.com" "pw1" aliceMfaNoSecret
    (by decide) (by decide) (by decide) (by decide) rfl rfl (by decide)

/-!
## C1: MFA-pending tokens against session-only endpoints
-/

/-- C1: evaluation at the failing input.  A validly signed, unexpired
MFA-pending token (claims `{userId: "u1", temp: true}`, minted at
time 0, presented at time 60000, well inside its 5-minute life) is
ACCEPTED by the `authenticateToken` middleware — which checks only
signature and expiry, never the `temp`/pending claim — so `/me`
answers 200 with the account data and `/enable-mfa` happily enables
MFA, contradicting the claim that every endpoint requiring a full
session token rejects such a token as invalid. -/
theorem c1_tempToken_authorizes_protected_endpoints :
    authenticateToken "s" 60000 (some (generateTempToken "s" 0 "u1")) =
      .proceed { userId := "u1", email := none, role := none,
                 temp := true, exp := 300000 } ∧
    meEndpoint "s" 60000 [aliceUser]
        (some (generateTempToken "s" 0 "u1")) =
      { status := 200,
        meUser := some { id := "u1", email := "alice@x.com",
                         name := "Alice", mfa_enabled := false,
                         created_at := some 1, last_login := none } } ∧
    (enableMfa "s" (fun sec code => sec == "PENDSECRET" && code == "000000")
        60000 [{ aliceUser with mfa_secret_temp := some "PENDSECRET" }]
        (some (generateTempToken "s" 0 "u1")) "000000").1 =
      { status := 200, message := some "MFA enabled successfully" } := by
  refine ⟨rfl, ?_, ?_⟩ <;> decide

/-!
## C2: unknown email versus wrong password
-/

/-- C2 counterexample: with one stored account, the login response
for an unknown email and the response for the registered email with a
wrong password are NOT identical — the claim that a caller cannot
distinguish the two cases fails at this concrete input (the second
body carries `attemptsRemaining`, the first does not). -/
theorem c2_counterexample :
    (login "s" (fun pw h => h == "H" ++ pw) 0 [aliceUser] "bob@x.com"
        "whatever").1 ≠
    (login "s" (fun pw h => h == "H" ++ pw) 0 [aliceUser] "alice@x.com"
        "wrongpw").1 := by
  decide

/-- C2 amended: the two cases agree on status 401 and on the error
message `Invalid email or password`, but only the
registered-with-wrong-password case carries the `attemptsRemaining`
field, so the two responses differ and a caller can distinguish
them. -/
theorem c2_unknown_vs_wrong_password_distinguishable
    (jwtSecret : String) (bcrypt : String → String → Bool) (now : Nat)
    (store : List AdminUser) (email1 password1 email2 password2 : String)
    (u : AdminUser)
    (h1e : email1 ≠ "") (h1p : password1 ≠ "")
    (h2e : email2 ≠ "") (h2p : password2 ≠ "")
    (hfind1 : findByEmail store email1 = none)
    (hfind2 : findByEmail store email2 = some u)
    (hlock : lockedNow now u = false)
    (hwrong : bcrypt password2 u.password_hash = false) :
    (login jwtSecret bcrypt now store email1 password1).1 =
      { status := 401, error := some "Invalid email or password" } ∧
    (login jwtSecret bcrypt now store email2 password2).1 =
      { status := 401, error := some "Invalid email or password",
        attemptsRemaining :=
          some (lockThreshold - (u.failed_login_attempts + 1)) } ∧
    (login jwtSecret bcrypt now store email1 password1).1 ≠
      (login jwtSecret bcrypt now store email2 password2).1 := by
  have h1 : (login jwtSecret bcrypt now store email1 password1).1 =
      { status := 401, error := some "Invalid email or password" } := by
    unfold login
    simp [h1e, h1p, hfind1]
  have h2 := login_wrong_eq jwtSecret bcrypt now store email2 password2 u
    h2e h2p hfind2 hlock hwrong
  refine ⟨h1, by rw [h2], ?_⟩
  rw [h1, h2]
  intro hcontra
  simpa using congrArg Resp.attemptsRemaining hcontra

/-- C2 witness: the amended statement at the concrete store of
`c2_counterexample`. -/
theorem c2_witness :
    (login "s" (fun pw h => h == "H" ++ pw) 0 [aliceUser] "bob@x.com"
        "whatever").1 =
      { status := 401, error := some "Invalid email or password" } ∧
    (login "s" (fun pw h => h == "H" ++ pw) 0 [aliceUser] "alice@x.com"
        "wrongpw").1 =
      { status := 401, error := some "Invalid email or password",
        attemptsRemaining := some 4 } ∧
    (login "s" (fun pw h => h == "H" ++ pw) 0 [aliceUser] "bob@x.com"
        "whatever").1 ≠
      (login "s" (fun pw h => h == "H" ++ pw) 0 [aliceUser]
        "alice@x.com" "wrongpw").1 := by
  have h := c2_unknown_vs_wrong_password_distinguishable "s"
    (fun pw h => h == "H" ++ pw) 0 [aliceUser] "bob@x.com" "whatever"
    "alice@x.com" "wrongpw" aliceUser
    (by decide) (by decide) (by decide) (by decide)
    (by decide) (by decide) (by decide) (by decide)
  simpa using h

/-!
## C3: what resets the failed-login counter
-/

/-- C3 counterexample: a successfully completed password reset does
NOT zero the failed-login counter.  Concrete account with counter 3
and a valid, unexpired reset token: the reset answers 200 (success)
yet the stored counter is still 3, refuting the claim that the
counter is zero immediately after a completed reset. -/
theorem c3_counterexample :
    (resetPassword (fun t => "sha:" ++ t) (fun p => "H" ++ p) 0
        [aliceReset3] "tok" "longpassword123").1.status = 200 ∧
    ((resetPassword (fun t => "sha:" ++ t) (fun p => "H" ++ p) 0
        [aliceReset3] "tok" "longpassword123").2.map
      fun w => w.failed_login_attempts) = [3] := by
  constructor <;> decide

/-- C3 amended: a successful password check in login resets the
failed-login counter to 0 (and clears the lockout); a completed
password reset, in contrast, leaves every account's failed-login
counter exactly as it was — `resetPassword` never touches that
column in any branch. -/
theorem c3_counter_reset_login_only (jwtSecret : String)
    (bcrypt : String → String → Bool) (now : Nat)
    (store : List AdminUser) (email password : String) (u : AdminUser)
    (hne : email ≠ "") (hnp : password ≠ "")
    (hfind : findByEmail store email = some u)
    (hlock : lockedNow now u = false)
    (hright : bcrypt password u.password_hash = true)
    (sha256 bhash : String → String) (rnow : Nat)
    (rstore : List AdminUser) (rtoken rnew : String) :
    (∀ v ∈ (login jwtSecret bcrypt now store email password).2,
       v.id = u.id →
         v.failed_login_attempts = 0 ∧ v.locked_until = none) ∧
    ((resetPassword sha256 bhash rnow rstore rtoken rnew).2.map
        fun w => w.failed_login_attempts) =
      rstore.map fun w => w.failed_login_attempts := by
  constructor
  · rw [login_success_store jwtSecret bcrypt now store email password u
      hne hnp hfind hlock hright]
    intro v hv hid
    obtain ⟨w, _, hvw⟩ := mem_updateUser hv
    by_cases h : w.id = u.id
    · simp only [if_pos h] at hvw
      subst hvw
      exact ⟨rfl, rfl⟩
    · simp only [if_neg h] at hvw
      subst hvw
      exact absurd hid h
  · unfold resetPassword
    split
    · rfl
    · split
      · rfl
      · dsimp only
        split
        · rfl
        · exact map_updateUser rstore _ _ _ fun w => rfl

/-- C3 witness: the amended statement at a concrete successful login
(counter 2 beforehand) and the concrete reset of
`c3_counterexample`. -/
theorem c3_witness :
    (∀ v ∈ (login "s" (fun pw h => h == "H" ++ pw) 0 [alice2]
        "alice@x.com" "pw1").2,
       v.id = alice2.id →
         v.failed_login_attempts = 0 ∧ v.locked_until = none) ∧
    ((resetPassword (fun t => "sha:" ++ t) (fun p => "H" ++ p) 0
        [aliceReset3] "tok" "longpassword123").2.map
      fun w => w.failed_login_attempts) =
      [aliceReset3].map fun w => w.failed_login_attempts := by
  exact c3_counter_reset_login_only "s" (fun pw h => h == "H" ++ pw) 0
    [alice2] "alice@x.com" "pw1" alice2
    (by decide) (by decide) (by decide) (by decide) (by decide)
    (fun t => "sha:" ++ t) (fun p => "H" ++ p) 0 [aliceReset3]
    "tok" "longpassword123"

/-!
## C6: verify-mfa with an expired or non-pending token
-/

/-- C6 counterexample: an MFA-pending token minted at time 0 and
presented at time 400000 (older than its 5-minute = 300000 ms life)
with an always-correct TOTP checker is answered with the generic 500
`Internal server error` — the infrastructure-error surface (the
thrown `jwt.verify` error falls into the handler's catch-all) — not a
distinct expired-or-not-pending rejection, refuting the claim. -/
theorem c6_counterexample :
    verifyMfa "s" (fun _ _ => true) 400000 [aliceMfa]
        (some (generateTempToken "s" 0 "u1")) "123456" =
      { status := 500, error := some "Internal server error" } := by
  decide

/-- C6 amended: a temp token that fails `jwt.verify` (expired or
badly signed) yields the catch-all 500 `Internal server error`
response, while a verifiable token without the pending claim yields
401 `Invalid token`; in neither case is a session token issued (both
response literals carry `token = none`), and the TOTP checker is
never consulted (the statement holds for every `totp`). -/
theorem c6_expired_or_not_pending_behavior (jwtSecret : String)
    (totp : String → String → Bool) (now : Nat)
    (store : List AdminUser) (tok : Jwt) (mfaCode : String)
    (hcode : mfaCode ≠ "") :
    (verifyJwt jwtSecret now tok = none →
       verifyMfa jwtSecret totp now store (some tok) mfaCode =
         { status := 500, error := some "Internal server error" }) ∧
    (∀ p, verifyJwt jwtSecret now tok = some p → p.temp = false →
       verifyMfa jwtSecret totp now store (some tok) mfaCode =
         { status := 401, error := some "Invalid token" }) := by
  constructor
  · intro hv
    unfold verifyMfa
    simp [hcode, hv]
  · intro p hv hp
    unfold verifyMfa
    simp [hcode, hv, hp]

/-- C6 witness: the expired pending token of `c6_counterexample` hits
the 500 branch; a valid full session token (no pending claim) hits
the 401 `Invalid token` branch. -/
theorem c6_witness :
    verifyMfa "s" (fun _ _ => true) 400000 [aliceMfa]
        (some (generateTempToken "s" 0 "u1")) "123456" =
      { status := 500, error := some "Internal server error" } ∧
    verifyMfa "s" (fun _ _ => true) 1000 [aliceMfa]
        (some (generateToken "s" 0 "u1" "alice@x.com")) "123456" =
      { status := 401, error := some "Invalid token" } := by
  constructor
  · exact (c6_expired_or_not_pending_behavior "s" (fun _ _ => true)
      400000 [aliceMfa] (generateTempToken "s" 0 "u1") "123456"
      (by decide)).1 (by decide)
  · exact (c6_expired_or_not_pending_behavior "s" (fun _ _ => true)
      1000 [aliceMfa] (generateToken "s" 0 "u1" "alice@x.com") "123456"
      (by decide)).2
      { userId := "u1", email := some "alice@x.com",
        role := some "admin", temp := false,
        exp := sessionLifetimeMs } (by decide) rfl

/-!
## C7: federation capacity is enforced only at creation
-/

/-- C7: for a whitelisted email, (a) when no account with that email
exists and the account count has reached the cap of 5, federation
answers `Maximum number of admin accounts reached` and the table is
unchanged (no account created); (b) when an account with that email
exists, it is authenticated (`ok` with that account) and its
last-login is rewritten to now, with the table size unchanged — with
no hypothesis on the account count, since the cap is only checked in
the creation branch. -/
theorem c7_federate_capacity_only_at_creation
    (allowedEmails : List String) (newId randHash : String) (now : Nat)
    (store : List AdminUser) (email displayName : String)
    (hwlne : allowedEmails.map (fun e => lowerStr (trimStr e)) ≠ [])
    (hmem : (allowedEmails.map fun e => lowerStr (trimStr e)).contains
        (lowerStr email) = true) :
    (findByEmail store email = none → maxAdminUsers ≤ store.length →
       federate allowedEmails newId randHash now store (some email)
           displayName =
         (.err "Maximum number of admin accounts reached", store)) ∧
    (∀ u, findByEmail store email = some u →
       federate allowedEmails newId randHash now store (some email)
           displayName =
         (.ok u,
          updateUser store u.id fun w => { w with last_login := some now })
       ∧ (federate allowedEmails newId randHash now store (some email)
           displayName).2.length = store.length) := by
  constructor
  · intro hfind hcap
    unfold federate
    simp [hwlne, hfind, hcap]
    simpa using hmem
  · intro u hfind
    have h : federate allowedEmails newId randHash now store (some email)
        displayName =
        (.ok u,
         updateUser store u.id fun w => { w with last_login := some now }) := by
      unfold federate
      simp [hwlne, hfind]
      simpa using hmem
    refine ⟨h, ?_⟩
    rw [h]
    simp [updateUser]

/-- C7 witness: with the table at the cap of five accounts, the
whitelisted new email `new@x.com` is rejected for capacity with no
account created, while the whitelisted existing `alice@x.com` is
still authenticated with last-login updated. -/
theorem c7_witness :
    federate ["New@X.com ", "alice@x.com"] "id9" "Hrand" 777 capStore
        (some "new@x.com") "New" =
      (.err "Maximum number of admin accounts reached", capStore) ∧
    federate ["New@X.com ", "alice@x.com"] "id9" "Hrand" 777 capStore
        (some "alice@x.com") "Alice" =
      (.ok aliceUser,
       updateUser capStore aliceUser.id
         fun w => { w with last_login := some 777 }) := by
  constructor
  · exact (c7_federate_capacity_only_at_creation
      ["New@X.com ", "alice@x.com"] "id9" "Hrand" 777 capStore
      "new@x.com" "New" (by decide) (by decide)).1 (by decide) (by decide)
  · exact ((c7_federate_capacity_only_at_creation
      ["New@X.com ", "alice@x.com"] "id9" "Hrand" 777 capStore
      "alice@x.com" "Alice" (by decide) (by decide)).2 aliceUser
      (by decide)).1

/-!
## C8: MFA enrollment confirmation
-/

/-- C8: for a session-authenticated enable-mfa call on an account
with pending secret `s`: with a code the TOTP checker accepts for
`s`, the single row update sets `mfa_enabled = true`, moves the
pending secret to the active secret and clears the pending field —
so every matching row afterwards has the active secret set and the
pending one `none` (at most one of the two set); with a rejected
code, the response is 401 `Invalid MFA code` and the whole table is
exactly unchanged. -/
theorem c8_enableMfa_promotes_pending_atomically (jwtSecret : String)
    (totp : String → String → Bool) (now : Nat)
    (store : List AdminUser) (tok : Jwt) (mfaCode : String)
    (u : AdminUser) (s : String)
    (hsig : tok.signedWith = jwtSecret) (hexp : now < tok.payload.exp)
    (hfind : findById store tok.payload.userId = some u)
    (huniq : ∀ v ∈ store, v.id = tok.payload.userId → v = u)
    (hpend : u.mfa_secret_temp = some s) (hs : s ≠ "")
    (hcode : mfaCode ≠ "") :
    (totp s mfaCode = true →
       (enableMfa jwtSecret totp now store (some tok) mfaCode).1 =
         { status := 200, message := some "MFA enabled successfully" } ∧
       ∀ v ∈ (enableMfa jwtSecret totp now store (some tok) mfaCode).2,
         v.id = tok.payload.userId →
           v.mfa_enabled = true ∧ v.mfa_secret = some s ∧
           v.mfa_secret_temp = none) ∧
    (totp s mfaCode = false →
       (enableMfa jwtSecret totp now store (some tok) mfaCode).1 =
         { status := 401, error := some "Invalid MFA code" } ∧
       (enableMfa jwtSecret totp now store (some tok) mfaCode).2 =
         store) := by
  have hguard : enableMfa jwtSecret totp now store (some tok) mfaCode =
      enableMfaHandler totp store tok.payload.userId mfaCode := by
    unfold enableMfa authenticateToken verifyJwt
    simp [hsig, hexp]
  have htruthy : optTruthy u.mfa_secret_temp = true := by
    rw [hpend]
    simpa [optTruthy] using hs
  have hgetD : u.mfa_secret_temp.getD "" = s := by
    rw [hpend]
    rfl
  constructor
  · intro hvalid
    have h : enableMfa jwtSecret totp now store (some tok) mfaCode =
        ({ status := 200, message := some "MFA enabled successfully" },
         updateUser store tok.payload.userId fun w =>
           { w with mfa_enabled := true, mfa_secret := w.mfa_secret_temp,
                    mfa_secret_temp := none }) := by
      rw [hguard]
      unfold enableMfaHandler
      simp [hcode, hfind, htruthy, hgetD, hvalid]
    rw [h]
    refine ⟨rfl, ?_⟩
    intro v hv hid
    obtain ⟨w, hw, hvw⟩ := mem_updateUser hv
    by_cases hcase : w.id = tok.payload.userId
    · have hwu : w = u := huniq w hw hcase
      subst hwu
      simp only [if_pos hcase] at hvw
      subst hvw
      exact ⟨rfl, hpend, rfl⟩
    · simp only [if_neg hcase] at hvw
      subst hvw
      exact absurd hid hcase
  · intro hinvalid
    have h : enableMfa jwtSecret totp now store (some tok) mfaCode =
        ({ status := 401, error := some "Invalid MFA code" }, store) := by
      rw [hguard]
      unfold enableMfaHandler
      simp [hcode, hfind, htruthy, hgetD, hinvalid]
    rw [h]
    exact ⟨rfl, rfl⟩

/-- C8 witness: the mid-enrollment sample account with a TOTP checker
accepting exactly code `000000` for the pending secret: code `000000`
promotes the secret atomically, code `999999` returns `Invalid MFA
code` and leaves the table unchanged. -/
theorem c8_witness :
    ((enableMfa "s" (fun sec code => sec == "PENDSECRET" && code == "000000")
        1000 [alicePending] (some (generateToken "s" 0 "u1" "alice@x.com"))
        "000000").1 =
      { status := 200, message := some "MFA enabled successfully" } ∧
     ∀ v ∈ (enableMfa "s"
        (fun sec code => sec == "PENDSECRET" && code == "000000")
        1000 [alicePending] (some (generateToken "s" 0 "u1" "alice@x.com"))
        "000000").2,
       v.id = "u1" →
         v.mfa_enabled = true ∧ v.mfa_secret = some "PENDSECRET" ∧
         v.mfa_secret_temp = none) ∧
    ((enableMfa "s" (fun sec code => sec == "PENDSECRET" && code == "000000")
        1000 [alicePending] (some (generateToken "s" 0 "u1" "alice@x.com"))
        "999999").1 =
      { status := 401, error := some "Invalid MFA code" } ∧
     (enableMfa "s" (fun sec code => sec == "PENDSECRET" && code == "000000")
        1000 [alicePending] (some (generateToken "s" 0 "u1" "alice@x.com"))
        "999999").2 = [alicePending]) := by
  constructor
  · exact (c8_enableMfa_promotes_pending_atomically "s"
      (fun sec code => sec == "PENDSECRET" && code == "000000") 1000
      [alicePending] (generateToken "s" 0 "u1" "alice@x.com") "000000"
      alicePending "PENDSECRET" rfl (by decide) (by decide)
      (by intro v hv _; simpa using hv) rfl (by decide) (by decide)).1
      (by decide)
  · exact (c8_enableMfa_promotes_pending_atomically "s"
      (fun sec code => sec == "PENDSECRET" && code == "000000") 1000
      [alicePending] (generateToken "s" 0 "u1" "alice@x.com") "999999"
      alicePending "PENDSECRET" rfl (by decide) (by decide)
      (by intro v hv _; simpa using hv) rfl (by decide) (by decide)).2
      (by decide)

/-!
## C9: the counter race between two concurrent wrong-password logins
-/

/-- Every scheduler step preserves the race invariant. -/
theorem step_preserves_raceInv (now : Nat) (c : Bool) (s : RaceState)
    (h : raceInv s) : raceInv (step now c s) := by
  obtain ⟨⟨counter, lockedUntil⟩, a, b⟩ := s
  obtain ⟨hc, ha, hb, hw⟩ := h
  cases c <;> cases a <;> cases b <;>
    simp_all [raceInv, goodPhase, step, stepAttempt, applyWrite,
      lockThreshold] <;>
    omega

/-- Running any schedule from `initRace` maintains the invariant. -/
theorem run_preserves_raceInv (now : Nat) (sched : List Bool)
    (s : RaceState) (h : raceInv s) : raceInv (run now sched s) := by
  induction sched generalizing s with
  | nil => exact h
  | cons c cs ih => exact ih (step now c s) (step_preserves_raceInv now c s h)

/-- C9 counterexample: the login counter update is a read-modify-write
across two round trips, not a storage-level atomic
increment-and-compare.  Under the schedule where both attempts
`SELECT` before either `UPDATE`s, both observe counter 4 and both
write counter 5: the final counter is 5, while under either
serialized schedule it is 6 — an outcome impossible for an atomic
per-account increment, refuting the claimed atomicity. -/
theorem c9_counterexample :
    (run 0 [true, false, true, false] initRace).rs.counter = 5 ∧
    (run 0 [true, false, true, false] initRace).a = Phase.written ∧
    (run 0 [true, false, true, false] initRace).b = Phase.written ∧
    (run 0 [true, true, false, false] initRace).rs.counter = 6 ∧
    (run 0 [false, false, true, true] initRace).rs.counter = 6 := by
  decide

/-- C9 amended: although the update is a two-round-trip
read-modify-write under which both attempts can observe counter 4 and
both write counter 5, each `UPDATE` writes the lockout computed from
the very counter value it writes, so in EVERY interleaving in which
either attempt has completed its write, the lockout is set — the
feared `counter = 5 with no lockout` state is unreachable. -/
theorem c9_lockout_never_skipped (now : Nat) (sched : List Bool)
    (h : (run now sched initRace).a = Phase.written ∨
         (run now sched initRace).b = Phase.written) :
    ((run now sched initRace).rs.lockedUntil).isSome = true := by
  have hinit : raceInv initRace := by
    refine ⟨by decide, trivial, trivial, ?_⟩
    rintro (hcontra | hcontra) <;> simp [initRace] at hcontra
  exact (run_preserves_raceInv now sched initRace hinit).2.2.2 h

/-- C9 witness: the racing schedule in which both attempts read
before either writes ends with both written and the lockout set. -/
theorem c9_witness :
    ((run 0 [true, false, true, false] initRace).a = Phase.written ∨
     (run 0 [true, false, true, false] initRace).b = Phase.written) ∧
    ((run 0 [true, false, true, false] initRace).rs.lockedUntil).isSome
      = true := by
  exact ⟨by decide,
    c9_lockout_never_skipped 0 [true, false, true, false] (by decide)⟩

end AuthRoutes
